import Mathlib

/-!
Verification development for the COMcheck CXL generator
(`streamlip_app.py`): a shallow embedding of the pure data pipeline
(column-normalised row loading, activity classification, wattage
parsing, validation, the `build_cxl` record builder and the XML
pretty-printer), together with theorems about the behaviours the
specification describes.

Modelling conventions:
  * pandas `NaN` cells are modelled as `none` of an `Option` type;
    pandas comparisons against `NaN` are `false`, which the embedded
    predicates reproduce explicitly.
  * Python `float` values arising in the pipeline are modelled by the
    exact decimal type `Dec` below (every numeric value the pipeline
    handles is a short terminating decimal, represented exactly).
  * Python dicts are modelled as association lists in insertion order,
    which is exactly the iteration order Python guarantees.
  * XML trees built with `ElementTree` are modelled by the inductive
    `Xml`; tag names drop the `{namespace}` wrapper, which is rendering
    detail only.
-/

/-- Exact decimal number `mant / 10 ^ exp`, modelling the Python floats
this pipeline produces (CSV numerics and the classifier's LPD
constants, all short terminating decimals). -/
structure Dec where
  mant : Int
  exp : Nat
deriving DecidableEq, Repr

/-- Power of ten as an integer. -/
def pow10 (n : Nat) : Int := Int.ofNat (10 ^ n)

instance : OfScientific Dec :=
  ⟨fun m sign e => if sign then ⟨Int.ofNat m, e⟩ else ⟨Int.ofNat m * pow10 e, 0⟩⟩

instance (n : Nat) : OfNat Dec n := ⟨⟨Int.ofNat n, 0⟩⟩

/-- Value of a `Dec` as a rational, used only to state semantics. -/
def Dec.toQ (d : Dec) : ℚ := (d.mant : ℚ) / (pow10 d.exp : ℚ)

/-- Boolean strict comparison of decimals (Python `<` on floats). -/
def Dec.blt (a b : Dec) : Bool := a.mant * pow10 b.exp < b.mant * pow10 a.exp

/-- Boolean comparison of decimals (Python `<=` on floats). -/
def Dec.ble (a b : Dec) : Bool := a.mant * pow10 b.exp ≤ b.mant * pow10 a.exp

/-- Truncation toward zero, modelling Python `int(...)` on a float. -/
def Dec.trunc (d : Dec) : Int := Int.tdiv d.mant (pow10 d.exp)

/-- Ascii lowercasing of a string, modelling Python `str.lower()`
(the inputs in play are ASCII). -/
def lowerStr (s : String) : String :=
  String.mk (s.data.map Char.toLower)

/-- Whitespace test for Python `str.strip()`'s default character set. -/
def isPySpace (c : Char) : Bool :=
  c == ' ' || c == '\t' || c == '\n' || c == '\r' || c == '\x0b' || c == '\x0c'

/-- Modelling Python `str.strip()`: drop leading and trailing whitespace. -/
def pyStrip (s : String) : String :=
  String.mk (((s.data.dropWhile isPySpace).reverse.dropWhile isPySpace).reverse)

/-- Boolean list-prefix test used to model Python substring containment. -/
def chPrefixOf : List Char → List Char → Bool
  | [], _ => true
  | _ :: _, [] => false
  | a :: as, b :: bs => a == b && chPrefixOf as bs

/-- Boolean list-infix test used to model Python substring containment. -/
def chInfixOf (n : List Char) : List Char → Bool
  | [] => chPrefixOf n []
  | c :: t => chPrefixOf n (c :: t) || chInfixOf n t

/-- Modelling the Python expression `k in d` on strings: `k` occurs as a
contiguous substring of `d`. -/
def substrOf (k d : String) : Bool :=
  chInfixOf k.data d.data

/-- Modelling `any(k in d for k in ks)` from `classify_activity`. -/
def anyKeyIn (d : String) (ks : List String) : Bool :=
  ks.any (fun k => substrOf k d)

/-- Embedding of `classify_activity` (src/streamlip_app.py lines 110-122):
lowercase the description, then run the ordered keyword rules, first
match wins, with the open-plan office pair as fallback. -/
def classify_activity (desc : String) : String × Dec :=
  let d := lowerStr desc
  if anyKeyIn d ["open desk", "open office", "workstation", "desks"] then
    ("ACTIVITY_COMMON_OFFICE_OPEN_PLAN", 0.86)
  else if anyKeyIn d ["large office", "private office", "office"] then
    ("ACTIVITY_COMMON_OFFICE_ENCLOSED", 0.79)
  else if anyKeyIn d ["conference", "phone", "huddle", "meeting"] then
    ("ACTIVITY_COMMON_CONFERENCE_HALL", 0.93)
  else if anyKeyIn d ["lobby", "reception", "prefunction"] then
    ("ACTIVITY_COMMON_LOBBY", 0.90)
  else if anyKeyIn d ["corridor", "hall", "hallway"] then
    ("ACTIVITY_COMMON_CORRIDOR", 0.66)
  else
    ("ACTIVITY_COMMON_OFFICE_OPEN_PLAN", 0.86)

/-- Result type of `parse_watts`: the Python function returns an `int` on
success and otherwise returns the cleaned string it failed to convert. -/
inductive WattVal where
  | num (n : Int)
  | str (s : String)
deriving DecidableEq, Repr

/-- Modelling `re.sub(r"[^\d.]+", "", s)`: keep only ASCII digits and dots. -/
def cleanWatt (s : String) : String :=
  String.mk (s.data.filter (fun c => c.isDigit || c == '.'))

/-- Value of a list of ASCII digit characters read in base 10. -/
def digitsToNat (l : List Char) : Nat :=
  l.foldl (fun a c => a * 10 + (c.toNat - 48)) 0

/-- Modelling Python `float(s)` on a string containing only digits and
dots: defined exactly when there is at least one digit and at most one
dot, in which case the value is intpart.fracpart. -/
def floatOfClean (s : String) : Option Dec :=
  let l := s.data
  if l.any (fun c => c.isDigit) && (l.filter (fun c => c == '.')).length ≤ 1 then
    let ip := l.takeWhile (fun c => c != '.')
    let fp := (l.dropWhile (fun c => c != '.')).drop 1
    some ⟨Int.ofNat (digitsToNat (ip ++ fp)), fp.length⟩
  else
    none

/-- Embedding of `parse_watts` (src/streamlip_app.py lines 124-132).
`none` models a pandas `NaN` cell (`pd.isna`), for which the function
returns the empty string; otherwise the input is stripped, non-digit
characters are removed, and `int(float(s))` is attempted — on failure
the cleaned string itself is returned, not a number. -/
def parse_watts (val : Option String) : WattVal :=
  match val with
  | none => .str ""
  | some v =>
    let s := cleanWatt (pyStrip v)
    match floatOfClean s with
    | some q => .num q.trunc
    | none => .str s

/-- Modelling `.astype(str)` on a possibly-`NaN` pandas cell: a missing
value renders as the string `"nan"`. -/
def pyStr (o : Option String) : String := o.getD "nan"

/-- Row of the normalised spaces table produced by `load_spaces_df`
(src/streamlip_app.py lines 134-166): columns description, floorArea,
activityType, lpd, allowanceType, allowanceFloorArea.  Numeric cells
are `Option Dec` because `pd.to_numeric(..., errors="coerce")` can
leave `NaN`. -/
structure SpaceRow where
  description : String
  floorArea : Option Dec
  activityType : String
  lpd : Option Dec
  allowanceType : String
  allowanceFloorArea : Option Dec
deriving DecidableEq, Repr

/-- Row of the normalised fixtures table produced by `load_fixtures_df`
(src/streamlip_app.py lines 168-191). -/
structure FixtureRow where
  spaceDescription : String
  description : String
  lightingType : String
  fixtureType : String
  lampType : String
  fixtureWattage : WattVal
  quantity : Option Int
deriving DecidableEq, Repr

/-- Which optional space columns the alias detection matched
(`normalize_columns` against `SPACE_ALIASES`). -/
structure SpaceColumnFlags where
  hasActivity : Bool
  hasLpd : Bool
  hasAllowanceType : Bool
  hasAllowanceArea : Bool
deriving DecidableEq, Repr

/-- Raw cell values of one row of the uploaded spaces CSV, after the
positional/alias column selection. -/
structure RawSpaceRow where
  description : String
  floorArea : Option Dec
  activity : Option String
  lpdVal : Option Dec
  allowanceTypeVal : Option String
  allowanceAreaVal : Option Dec
deriving DecidableEq, Repr

/-- Embedding of the per-row logic of `load_spaces_df`
(src/streamlip_app.py lines 134-166): description and floorArea are
taken from the (aliased or positional) columns; when an activityType
column is present it is copied verbatim and the lpd column is used if
present, otherwise the lpd is inferred by `classify_activity` on the
description; when no activityType column is present both the activity
and the lpd come from the classifier.  Allowance columns default to
`"ALLOWANCE_NONE"` and `0`. -/
def load_space_row (f : SpaceColumnFlags) (r : RawSpaceRow) : SpaceRow :=
  let actLpd : String × Option Dec :=
    if f.hasActivity then
      (pyStr r.activity,
       if f.hasLpd then r.lpdVal else some (classify_activity r.description).2)
    else
      ((classify_activity r.description).1, some (classify_activity r.description).2)
  { description := r.description
    floorArea := r.floorArea
    activityType := actLpd.1
    lpd := actLpd.2
    allowanceType :=
      if f.hasAllowanceType then (r.allowanceTypeVal.getD "ALLOWANCE_NONE")
      else "ALLOWANCE_NONE"
    allowanceFloorArea :=
      if f.hasAllowanceArea then some ⟨((r.allowanceAreaVal.getD 0).trunc), 0⟩
      else some 0 }

/-- Raw cell values of one row of the uploaded fixtures CSV, after the
positional/alias column selection; the three `Option String` overrides
model the optional lightingType / fixtureType / lampType columns
(src/streamlip_app.py lines 188-190). -/
structure RawFixtureRow where
  spaceDescription : String
  description : String
  quantity : Option Dec
  wattage : Option String
  lightingTypeOv : Option String
  fixtureTypeOv : Option String
  lampTypeOv : Option String
deriving DecidableEq, Repr

/-- Embedding of the per-row logic of `load_fixtures_df`
(src/streamlip_app.py lines 168-191): lightingType defaults to
`"GENERAL_LIGHTING"`, fixtureType defaults to a copy of the fixture
description, lampType defaults to `"LED"`, wattage goes through
`parse_watts` and quantity through `int(float(...))` (empty when the
cell is `NaN`). -/
def load_fixture_row (r : RawFixtureRow) : FixtureRow :=
  { spaceDescription := r.spaceDescription
    description := r.description
    lightingType := r.lightingTypeOv.getD "GENERAL_LIGHTING"
    fixtureType := r.fixtureTypeOv.getD r.description
    lampType := r.lampTypeOv.getD "LED"
    fixtureWattage := parse_watts r.wattage
    quantity := r.quantity.map Dec.trunc }

/-- Embedding of `validate_spaces_df` (src/streamlip_app.py lines
193-206): an empty table short-circuits with the "appears empty"
message; otherwise rows with allowanceFloorArea exceeding floorArea and
rows with non-positive LPD each contribute one message.  Comparisons
against a `NaN` cell are false, as in pandas. -/
def validate_spaces_df (rows : List SpaceRow) : List String :=
  if rows.isEmpty then ["Spaces CSV appears empty."]
  else
    (if rows.any (fun sp =>
        match sp.allowanceFloorArea, sp.floorArea with
        | some a, some fl => Dec.blt fl a
        | _, _ => false)
     then ["Some rows have allowanceFloorArea > floorArea."] else []) ++
    (if rows.any (fun sp =>
        match sp.lpd with
        | some q => Dec.ble q 0
        | none => false)
     then ["Some rows have non-positive LPD. Check activity type mapping."] else [])

/-- Embedding of `validate_fixtures_df` (src/streamlip_app.py lines
208-216): non-positive wattage or quantity each contribute one message;
a non-numeric wattage string coerces to `NaN` and so never compares
true. -/
def validate_fixtures_df (rows : List FixtureRow) : List String :=
  if rows.isEmpty then []
  else
    (if rows.any (fun r =>
        match r.fixtureWattage with
        | .num n => n ≤ 0
        | .str _ => false)
     then ["One or more fixtures have non-positive wattage."] else []) ++
    (if rows.any (fun r =>
        match r.quantity with
        | some n => n ≤ 0
        | none => false)
     then ["One or more fixtures have non-positive quantity."] else [])

/-- XML element tree, modelling `xml.etree.ElementTree.Element`: a tag,
attributes in insertion order, optional text, and child elements in
append order.  The `E` helper of the source always creates namespaced
tags; the namespace wrapper is dropped here since it is uniform. -/
inductive Xml where
  | el (tag : String) (attrs : List (String × String)) (text : Option String) (children : List Xml)

/-- Modelling the source's `E(tag, text, parent)` helper: build one
element (attachment to the parent is expressed by listing it among the
parent's children). -/
def E (tag : String) (text : Option String) (children : List Xml) : Xml :=
  .el tag [] text children

/-- Tag of an element. -/
def xmlTag : Xml → String
  | .el t _ _ _ => t

/-- Text of an element. -/
def xmlText : Xml → Option String
  | .el _ _ t _ => t

/-- Children of an element. -/
def xmlChildren : Xml → List Xml
  | .el _ _ _ cs => cs

/-- Text of the first child with the given tag, if any. -/
def childText (x : Xml) (tag : String) : Option String :=
  ((xmlChildren x).find? (fun c => xmlTag c == tag)).bind xmlText

/-- Escaping of text content as performed by `ElementTree.tostring`. -/
def escapeXml (s : String) : String :=
  String.mk (s.data.flatMap (fun c =>
    if c == '&' then "&amp;".data
    else if c == '<' then "&lt;".data
    else if c == '>' then "&gt;".data
    else [c]))

/-- Indentation string of the pretty-printer (`toprettyxml` default). -/
def nTabs (n : Nat) : String := String.mk (List.replicate n '\t')

mutual

/-- Rendering of one element at a given depth, modelling
`minidom.toprettyxml`: empty elements self-close, elements whose only
content is text render on one line, elements with children indent each
child one level deeper. -/
def renderElem (d : Nat) (x : Xml) : String :=
  match x with
  | .el tag attrs txt kids =>
    let attrsStr := String.join (attrs.map (fun p => " " ++ p.1 ++ "=\"" ++ escapeXml p.2 ++ "\""))
    let openTag := nTabs d ++ "<" ++ tag ++ attrsStr
    match txt, kids with
    | none, [] => openTag ++ "/>\n"
    | some t, [] => openTag ++ ">" ++ escapeXml t ++ "</" ++ tag ++ ">\n"
    | _, _ =>
      openTag ++ ">\n" ++
      (match txt with
       | some t => nTabs (d + 1) ++ escapeXml t ++ "\n"
       | none => "") ++
      renderKids (d + 1) kids ++ nTabs d ++ "</" ++ tag ++ ">\n"

/-- Rendering of a list of sibling elements. -/
def renderKids (d : Nat) : List Xml → String
  | [] => ""
  | x :: xs => renderElem d x ++ renderKids d xs

end

/-- Embedding of `prettify` (src/streamlip_app.py lines 97-98):
serialize the tree and pretty-print it with an XML declaration. -/
def prettify (x : Xml) : String :=
  "<?xml version=\"1.0\" encoding=\"UTF-8\"?>\n" ++ renderElem 0 x

/-- Helper of the decimal renderer: drop trailing zero digits of the
mantissa while decimals remain, mirroring the shortest-repr behaviour
of Python `str()` on a float. -/
def stripZeros : Nat → Nat → Nat × Nat
  | m, 0 => (m, 0)
  | m, e + 1 => if m % 10 == 0 then stripZeros (m / 10) e else (m, e + 1)

/-- Rendering of a decimal as Python `str()` renders the corresponding
float: integral values end in `.0`, fractional values print the
shortest decimal expansion (`0.9`, `0.86`, ...). -/
def pyFloatStr (d : Dec) : String :=
  let sign := if d.mant < 0 then "-" else ""
  let p := stripZeros d.mant.natAbs d.exp
  if p.2 == 0 then sign ++ toString p.1 ++ ".0"
  else
    let ip := p.1 / 10 ^ p.2
    let fr := p.1 % 10 ^ p.2
    let frs := toString fr
    sign ++ toString ip ++ "." ++ String.mk (List.replicate (p.2 - frs.length) '0') ++ frs

/-- Rendering of `str(int(float(x))) if pd.notna(x) else 0` as used for
the floorArea and allowanceFloorArea fields (src/streamlip_app.py
lines 301-302). -/
def optIntText (o : Option Dec) : String :=
  match o with
  | none => "0"
  | some q => toString q.trunc

/-- Rendering of a `parse_watts` result with Python `str()`. -/
def wattText : WattVal → String
  | .num n => toString n
  | .str s => s

/-- Rendering of a loaded quantity cell with Python `str()` (a `NaN`
source cell became the empty string in `load_fixtures_df`). -/
def qtyText : Option Int → String
  | none => ""
  | some n => toString n

/-- Rendering of the lpd column value with Python `str()` (`"nan"` for a
missing value). -/
def lpdText : Option Dec → String
  | none => "nan"
  | some q => pyFloatStr q

/-- Embedding of the `CODE_TO_CONTROL` dictionary (src/streamlip_app.py
lines 42-60), in insertion order. -/
def CODE_TO_CONTROL : List (String × String) :=
  [("IECC 2015", "CEZ_IECC2015"),
   ("IECC 2018", "CEZ_IECC2018"),
   ("IECC 2021", "CEZ_IECC2021"),
   ("IECC 2024", "CEZ_IECC2024"),
   ("ASHRAE 90.1-2013", "CEZ_ASHRAE90_1_2013"),
   ("ASHRAE 90.1-2016", "CEZ_ASHRAE90_1_2016"),
   ("ASHRAE 90.1-2019", "CEZ_ASHRAE90_1_2019"),
   ("ASHRAE 90.1-2022", "CEZ_ASHRAE90_1_2022"),
   ("NYC Energy Conservation Code (NYCECC)", "CEZ_LOCAL_NYCECC"),
   ("NYStretch-2020", "CEZ_LOCAL_NYSTRETCH_2020"),
   ("Boulder, CO", "CEZ_LOCAL_BOULDER"),
   ("Denver, CO", "CEZ_LOCAL_DENVER"),
   ("Massachusetts Commercial Energy Code", "CEZ_LOCAL_MASSACHUSETTS"),
   ("Minnesota Commercial Energy Code", "CEZ_LOCAL_MINNESOTA"),
   ("Vermont 2020", "CEZ_LOCAL_VERMONT_2020"),
   ("Ontario 2017", "CEZ_LOCAL_ONTARIO_2017"),
   ("Puerto Rico 2011", "CEZ_LOCAL_PUERTO_RICO_2011")]

/-- Modelling Python `dict.get(key, default)` on an association list. -/
def dictGet (m : List (String × String)) (k dflt : String) : String :=
  match m.find? (fun p => p.1 == k) with
  | some p => p.2
  | none => dflt

/-- Accumulation step of the `fixtures_by_space` dictionary
(`setdefault(key, []).append(row)`): append the row to the existing
entry, or add a new entry at the end. -/
def addFixture (m : List (String × List FixtureRow)) (k : String) (r : FixtureRow) :
    List (String × List FixtureRow) :=
  match m with
  | [] => [(k, [r])]
  | (k0, rs) :: t =>
    if k0 == k then (k0, rs ++ [r]) :: t else (k0, rs) :: addFixture t k r

/-- Embedding of the `fixtures_by_space` dictionary construction
(src/streamlip_app.py lines 288-293): rows grouped by the stripped
spaceDescription, keys in first-appearance order, rows per key in input
order.  An empty fixtures table yields the empty dictionary, matching
the `if not fixtures_df.empty` guard. -/
def fixturesBySpace (rows : List FixtureRow) : List (String × List FixtureRow) :=
  rows.foldl (fun m r => addFixture m (pyStrip r.spaceDescription) r) []

/-- Modelling `fixtures_by_space.get(desc, [])`. -/
def lookupFx : List (String × List FixtureRow) → String → List FixtureRow
  | [], _ => []
  | (k0, rs) :: t, k => if k0 == k then rs else lookupFx t k

/-- Embedding of the `lightingFixture` element emission
(src/streamlip_app.py lines 304-308): the six fields in fixed order,
each rendered with `str(...).strip()`. -/
def fixtureElem (r : FixtureRow) : Xml :=
  E "lightingFixture" none
    [E "description" (some (pyStrip r.description)) [],
     E "lightingType" (some (pyStrip r.lightingType)) [],
     E "fixtureType" (some (pyStrip r.fixtureType)) [],
     E "lampType" (some (pyStrip r.lampType)) [],
     E "fixtureWattage" (some (pyStrip (wattText r.fixtureWattage))) [],
     E "quantity" (some (pyStrip (qtyText r.quantity))) []]

/-- Embedding of the `interiorLightingSpace` element emission
(src/streamlip_app.py lines 296-308): the four space fields followed by
one `lightingFixture` element per fixture row whose stripped room name
equals this row's stripped description. -/
def spaceElem (fb : List (String × List FixtureRow)) (sp : SpaceRow) : Xml :=
  E "interiorLightingSpace" none
    ([E "description" (some (pyStrip sp.description)) [],
      E "allowanceType" (some (pyStrip sp.allowanceType)) [],
      E "allowanceFloorArea" (some (optIntText sp.allowanceFloorArea)) [],
      E "floorArea" (some (optIntText sp.floorArea)) []] ++
     (lookupFx fb (pyStrip sp.description)).map fixtureElem)

/-- Embedding of the `activityUse` element emission
(src/streamlip_app.py lines 311-319): key, activityType,
activityDescription, areaDescription and powerDensity, with the
stripped description reused for key and both description fields. -/
def activityElem (sp : SpaceRow) : Xml :=
  E "activityUse" none
    [E "key" (some (pyStrip sp.description)) [],
     E "activityType" (some (pyStrip sp.activityType)) [],
     E "activityDescription" (some (pyStrip sp.description)) [],
     E "areaDescription" (some (pyStrip sp.description)) [],
     E "powerDensity" (some (pyStrip (lpdText sp.lpd))) []]

/-- Inputs of `build_cxl` (src/streamlip_app.py lines 218-226). -/
structure BuildInput where
  state : String
  city : String
  selectedCodeLabel : String
  projectName : String
  ownerName : String
  notes : String
  spaces : List SpaceRow
  fixtures : List FixtureRow
  versionStr : String

/-- Interior-space section of the built tree, in emission order (one
element per spaces row, input order). -/
def interiorSpaceElems (i : BuildInput) : List Xml :=
  i.spaces.map (spaceElem (fixturesBySpace i.fixtures))

/-- Activity-use section of the built tree, in emission order (one
element per spaces row, input order). -/
def activityUseElems (i : BuildInput) : List Xml :=
  i.spaces.map activityElem

/-- Embedding of the `control` element (src/streamlip_app.py lines
244-248): unknown code labels fall back to `"CEZ_IECC2018"` via
`dict.get`. -/
def controlElem (i : BuildInput) : Xml :=
  E "control" none
    [E "code" (some (dictGet CODE_TO_CONTROL i.selectedCodeLabel "CEZ_IECC2018")) [],
     E "complianceMode" (some "UA") [],
     E "version" (some i.versionStr) []]

/-- Embedding of the `requirements` element (src/streamlip_app.py lines
321-324), with the same `dict.get` fallback as the control element. -/
def requirementsElem (i : BuildInput) : Xml :=
  E "requirements" none
    [E "energyCode" (some (dictGet CODE_TO_CONTROL i.selectedCodeLabel "CEZ_IECC2018")) [],
     E "softwareVersion" (some i.versionStr) []]

/-- Embedding of the synthetic `wholeBldgUse` boilerplate element
(src/streamlip_app.py lines 275-286), to which the interior lighting
spaces are appended as further children (line 297 parents them to `w`). -/
def wholeBldgUseElem (i : BuildInput) : Xml :=
  E "wholeBldgUse" none
    ([E "wholeBldgType" (some "WHOLE_BUILDING_INVALID_USE") [],
      E "key" (some "1") [],
      E "powerDensity" (some "0") [],
      E "internalLoad" (some "0") [],
      E "ceilingHeight" (some "0") [],
      E "listPosition" (some "1") [],
      E "constructionType" (some "NON_RESIDENTIAL") [],
      E "floorArea" (some "0") []] ++
     interiorSpaceElems i)

/-- Embedding of the `lighting` element (src/streamlip_app.py lines
270-319): exterior-zone boilerplate, the wholeBldgUses container and
the activityUses section. -/
def lightingElem (i : BuildInput) : Xml :=
  E "lighting" none
    [E "exteriorLightingZone" (some "0") [],
     E "exteriorLightingZoneType" (some "EXT_ZONE_UNSPECIFIED") [],
     E "wholeBldgUses" none [wholeBldgUseElem i],
     E "activityUses" none (activityUseElems i)]

/-- Embedding of `build_cxl` (src/streamlip_app.py lines 218-326): the
root `building` element with its boilerplate children, control,
location, project, envelope, lighting and requirements, in creation
order. -/
def build_cxl (i : BuildInput) : Xml :=
  .el "building"
    [("xmlns", "http://energycode.pnl.gov/ns/ComCheckBuildingSchema"),
     ("xmlns:xs", "http://www.w3.org/2001/XMLSchema-instance")]
    none
    [E "projectType" (some "NEW_CONSTRUCTION") [],
     E "bldgUseType" (some "ACTIVITY") [],
     E "feetBldgHeight" (some "0.000") [],
     E "isNonresidentialConditioning" (some "true") [],
     E "isResidentialConditioning" (some "false") [],
     E "isSemiheatedConditioning" (some "false") [],
     E "conditioning" (some "HEATING_AND_COOLING") [],
     controlElem i,
     E "location" none [E "state" (some i.state) [], E "city" (some i.city) []],
     E "project" none
       [E "projectName" (some i.projectName) [],
        E "ownerName" (some i.ownerName) [],
        E "notes" (some i.notes) []],
     E "envelope" none
       [E "useOrientDetails" (some "true") [],
        E "useVltDetails" (some "false") [],
        E "useCoolRoofPerformanceDetails" (some "false") [],
        E "airBarrierComplianceType" (some "AIR_BARRIER_OPTION_UNKNOWN") [],
        E "applyWindowPctAllowanceForDaylighting" (some "false") [],
        E "applySkylightPctAllowanceForDaylighting" (some "false") []],
     lightingElem i,
     requirementsElem i]

/-- Serialized bytes of a build, as returned by `build_cxl` (which ends
with `return prettify(root)`). -/
def cxlBytes (i : BuildInput) : String :=
  prettify (build_cxl i)

/-- Embedding of the generate-button gating (src/streamlip_app.py line
432): `disabled = spaces_df.empty or bool(validate_spaces_df(spaces_df))`. -/
def generate_disabled (rows : List SpaceRow) : Bool :=
  rows.isEmpty || !(validate_spaces_df rows).isEmpty

/-- Modelling the Generate step (src/streamlip_app.py lines 431-450):
`build_cxl` runs and its bytes are offered for download only when the
gating leaves the button enabled; otherwise no output is produced. -/
def generateOutput (i : BuildInput) : Option String :=
  if generate_disabled i.spaces then none else some (cxlBytes i)

/-- Children of an element that are `lightingFixture` records. -/
def fixtureChildren (x : Xml) : List Xml :=
  (xmlChildren x).filter (fun c => xmlTag c == "lightingFixture")

/-- Every `lightingFixture` element of the built tree, grouped under its
owning `interiorLightingSpace`, flattened in emission order. -/
def allFixtureElems (i : BuildInput) : List Xml :=
  (interiorSpaceElems i).flatMap fixtureChildren

/-- Space row with the given description and placeholder data, used for
the concrete scenarios below. -/
def mkSpace (d : String) : SpaceRow :=
  ⟨d, some 100, "ACTIVITY_COMMON_OFFICE_OPEN_PLAN", some 0.86, "ALLOWANCE_NONE", some 0⟩

/-- Concrete build input with a single room and no fixtures. -/
def inputOneRoom : BuildInput :=
  ⟨"New York", "New York", "IECC 2018", "Sample Project", "", "Generated via Streamlit",
   [mkSpace "ROOM A"], [], "24.1.6"⟩

/-- Concrete build input whose space table lists room "B" before room
"A" (the reverse of lexicographic order). -/
def inputBA : BuildInput :=
  { inputOneRoom with spaces := [mkSpace "B", mkSpace "A"] }

/-- Concrete build input whose selected code label is not a key of
`CODE_TO_CONTROL`. -/
def inputUnknownCode : BuildInput :=
  { inputOneRoom with selectedCodeLabel := "NOT A CODE" }

/-- Concrete build input with an empty space table. -/
def inputEmptySpaces : BuildInput :=
  { inputOneRoom with spaces := [] }

/-- First fixture input row of the aggregation scenario:
(RoomA, TypeX, qty 2, watt "6"). -/
def fxRowA1 : FixtureRow :=
  load_fixture_row ⟨"RoomA", "TypeX", some 2, some "6", none, none, none⟩

/-- Second fixture input row of the aggregation scenario:
(RoomA, TypeX, qty 3, watt "6"). -/
def fxRowA2 : FixtureRow :=
  load_fixture_row ⟨"RoomA", "TypeX", some 3, some "6", none, none, none⟩

/-- Space row for RoomA in the aggregation scenario. -/
def spRoomA : SpaceRow :=
  ⟨"RoomA", some 830, "ACTIVITY_COMMON_OFFICE_OPEN_PLAN", some 0.86, "ALLOWANCE_NONE", some 0⟩

/-- Concrete build input with one room and a fixture row whose room name
("RoomA") matches no space row. -/
def inputFxUnmatched : BuildInput :=
  { inputOneRoom with fixtures := [fxRowA1] }

/-- Raw space row carrying an explicit activity type
(`ACTIVITY_COMMON_LOBBY`) whose free-text description classifies as a
corridor. -/
def rawCorridorLobby : RawSpaceRow :=
  ⟨"CORRIDOR 1", some 100, some "ACTIVITY_COMMON_LOBBY", none, none, none⟩

theorem lookupFx_addFixture (m : List (String × List FixtureRow)) (k' k : String) (r : FixtureRow) :
    lookupFx (addFixture m k' r) k =
      lookupFx m k ++ (if (k' == k) = true then [r] else []) := by
  induction m with
  | nil =>
    by_cases h : (k' == k) = true <;> simp [addFixture, lookupFx, h]
  | cons p t ih =>
    obtain ⟨k0, rs⟩ := p
    by_cases h0 : (k0 == k') = true
    · have hk0 : k0 = k' := by simpa [beq_iff_eq] using h0
      subst hk0
      by_cases hk : (k0 == k) = true
      · simp [addFixture, lookupFx, hk]
      · simp [addFixture, lookupFx, hk]
    · by_cases hk : (k0 == k) = true
      · have e1 : k0 = k := by simpa [beq_iff_eq] using hk
        have e2 : (k' == k) = false := by
          rw [beq_eq_false_iff_ne]
          intro e; exact h0 (by simp [beq_iff_eq, e1, e])
        simp [addFixture, lookupFx, h0, hk, e2]
      · simp [addFixture, lookupFx, h0, hk, ih]

theorem lookupFx_fixturesBySpace (rows : List FixtureRow) (k : String) :
    lookupFx (fixturesBySpace rows) k =
      rows.filter (fun r => pyStrip r.spaceDescription == k) := by
  suffices h : ∀ m, lookupFx (rows.foldl (fun m r => addFixture m (pyStrip r.spaceDescription) r) m) k
      = lookupFx m k ++ rows.filter (fun r => pyStrip r.spaceDescription == k) by
    simpa [fixturesBySpace, lookupFx] using h []
  induction rows with
  | nil => intro m; simp
  | cons r t ih =>
    intro m
    rw [List.foldl_cons, ih, lookupFx_addFixture]
    by_cases h : (pyStrip r.spaceDescription == k) = true <;>
      simp [List.filter_cons, h]

theorem filter_map_fixtureElem (l : List FixtureRow) :
    (l.map fixtureElem).filter (fun c => xmlTag c == "lightingFixture") = l.map fixtureElem := by
  induction l with
  | nil => rfl
  | cons r t ih => simp [List.map_cons, List.filter_cons, fixtureElem, E, xmlTag, ih]

theorem fixtureChildren_spaceElem (fb : List (String × List FixtureRow)) (sp : SpaceRow) :
    fixtureChildren (spaceElem fb sp) = (lookupFx fb (pyStrip sp.description)).map fixtureElem := by
  show List.filter _ (_ ++ _) = _
  rw [List.filter_append, filter_map_fixtureElem]
  rfl

theorem childText_spaceElem_description (fb : List (String × List FixtureRow)) (sp : SpaceRow) :
    childText (spaceElem fb sp) "description" = some (pyStrip sp.description) := rfl

theorem childText_activityElem_key (sp : SpaceRow) :
    childText (activityElem sp) "key" = some (pyStrip sp.description) := rfl

theorem childText_activityElem_listPosition (sp : SpaceRow) :
    childText (activityElem sp) "listPosition" = none := rfl

theorem find_map_fixtureElem_none (l : List FixtureRow) (tag : String)
    (h : (("lightingFixture" : String) == tag) = false) :
    (l.map fixtureElem).find? (fun c => xmlTag c == tag) = none := by
  induction l with
  | nil => rfl
  | cons r t ih => simp [List.map_cons, List.find?, fixtureElem, E, xmlTag, h, ih]

theorem childText_spaceElem_listPosition (fb : List (String × List FixtureRow)) (sp : SpaceRow) :
    childText (spaceElem fb sp) "listPosition" = none := by
  show (List.find? _ (_ ++ _)).bind xmlText = none
  rw [List.find?_append]
  have h1 : List.find? (fun c => xmlTag c == "listPosition")
      [E "description" (some (pyStrip sp.description)) [],
       E "allowanceType" (some (pyStrip sp.allowanceType)) [],
       E "allowanceFloorArea" (some (optIntText sp.allowanceFloorArea)) [],
       E "floorArea" (some (optIntText sp.floorArea)) []] = none := rfl
  rw [h1, find_map_fixtureElem_none _ _ (by decide)]
  rfl

/-- C3: classification evaluates its rules as an ordered chain in which
the first matching rule wins: any description matching the open-desk
keyword group classifies as the open-plan office category regardless of
what later rules would match, and in particular
"OPEN DESK AREA - CORRIDOR 5", which also contains the corridor
keyword, classifies as open-plan office and not as corridor. -/
theorem c3_first_match_wins :
    (∀ d : String,
      anyKeyIn (lowerStr d) ["open desk", "open office", "workstation", "desks"] = true →
      classify_activity d = ("ACTIVITY_COMMON_OFFICE_OPEN_PLAN", 0.86)) ∧
    (classify_activity "OPEN DESK AREA - CORRIDOR 5").1 = "ACTIVITY_COMMON_OFFICE_OPEN_PLAN" ∧
    substrOf "corridor" (lowerStr "OPEN DESK AREA - CORRIDOR 5") = true ∧
    (classify_activity "OPEN DESK AREA - CORRIDOR 5").1 ≠ "ACTIVITY_COMMON_CORRIDOR" := by
  refine ⟨?_, by decide, by decide, by decide⟩
  intro d h
  simp [classify_activity, h]

/-- Witness for C3: the open-desk rule fires on a concrete name that the
corridor rule would also match. -/
theorem c3_first_match_wins_witness :
    classify_activity "open desk by the corridor" = ("ACTIVITY_COMMON_OFFICE_OPEN_PLAN", 0.86) :=
  c3_first_match_wins.1 "open desk by the corridor" (by decide)

/-- C4 counterexample: on the empty string (an input with no extractable
digits) `parse_watts` does not return the number 0 — it returns the
cleaned string, which is empty. -/
theorem c4_empty_not_zero :
    parse_watts (some "") = WattVal.str "" ∧ WattVal.str "" ≠ WattVal.num 0 := by
  decide

/-- C4 amended: "6 W", "6W" and "6" all parse to the numeric value 6,
and an input with no extractable digits returns the cleaned remainder
string (the empty string for empty or letter-only garbage) rather than
the number 0, without raising an error. -/
theorem c4_watt_parsing :
    parse_watts (some "6 W") = WattVal.num 6 ∧
    parse_watts (some "6W") = WattVal.num 6 ∧
    parse_watts (some "6") = WattVal.num 6 ∧
    (∀ s : String, s.data.all (fun c => !c.isDigit) = true →
      parse_watts (some s) = WattVal.str (cleanWatt (pyStrip s))) := by
  refine ⟨by decide, by decide, by decide, ?_⟩
  intro s hs
  have hall : ∀ c ∈ s.data, c.isDigit = false := by
    intro c hc
    have := List.all_eq_true.mp hs c hc
    simpa using this
  have hmem : ∀ c ∈ (cleanWatt (pyStrip s)).data, c.isDigit = false := by
    intro c hc
    have h1 : c ∈ (pyStrip s).data := (List.mem_filter.mp hc).1
    have h2 : c ∈ s.data := by
      have h3 : c ∈ (s.data.dropWhile isPySpace).reverse.dropWhile isPySpace := by
        simpa [pyStrip] using h1
      have h4 : c ∈ (s.data.dropWhile isPySpace).reverse :=
        (List.dropWhile_sublist _).subset h3
      have h5 : c ∈ s.data.dropWhile isPySpace := List.mem_reverse.mp h4
      exact (List.dropWhile_sublist _).subset h5
    exact hall c h2
  have hany : (cleanWatt (pyStrip s)).data.any (fun c => c.isDigit) = false := by
    rw [List.any_eq_false]
    intro c hc
    simp [hmem c hc]
  simp [parse_watts, floatOfClean, hany]

/-- Witness for C4: the general no-digit clause applied to a concrete
garbage string. -/
theorem c4_watt_parsing_witness :
    parse_watts (some " n/a ") = WattVal.str (cleanWatt (pyStrip " n/a ")) :=
  c4_watt_parsing.2.2.2 " n/a " (by decide)

/-- C10: when the space table supplies an activityType column but no LPD
column, every row's lpd is produced by running the classifier on the
free-text description, independently of the supplied activity value; on
the concrete row ("CORRIDOR 1", activity ACTIVITY_COMMON_LOBBY) the
emitted power density is the corridor value 0.66, which disagrees with
the lobby category's classifier value 0.90. -/
theorem c10_lpd_inferred_from_description :
    (∀ (c d : Bool) (r : RawSpaceRow),
      (load_space_row ⟨true, false, c, d⟩ r).lpd = some (classify_activity r.description).2) ∧
    (∀ (c d : Bool) (r : RawSpaceRow) (a b : Option String),
      (load_space_row ⟨true, false, c, d⟩ { r with activity := a }).lpd =
        (load_space_row ⟨true, false, c, d⟩ { r with activity := b }).lpd) ∧
    ((load_space_row ⟨true, false, false, false⟩ rawCorridorLobby).activityType =
        "ACTIVITY_COMMON_LOBBY" ∧
     (load_space_row ⟨true, false, false, false⟩ rawCorridorLobby).lpd = some 0.66 ∧
     (classify_activity "RECEPTION").1 = "ACTIVITY_COMMON_LOBBY" ∧
     (classify_activity "RECEPTION").2 = 0.90 ∧
     (0.66 : Dec) ≠ (0.90 : Dec)) := by
  refine ⟨fun c d r => rfl, fun c d r a b => rfl, by decide, by decide, by decide, by decide, by decide⟩

/-- C1 counterexample: on a concrete one-room input the built
interior-space and activity-use records carry no listPosition field at
all, so the builder does not assign list positions to these records
(only the boilerplate wholeBldgUse record has one). -/
theorem c1_no_listPosition_emitted :
    (interiorSpaceElems inputOneRoom).map (fun x => childText x "listPosition") = [none] ∧
    (activityUseElems inputOneRoom).map (fun x => childText x "listPosition") = [none] := by
  exact ⟨rfl, rfl⟩

/-- C1 amended: the builder writes no explicit listPosition field for
INTERIOR_SPACE or ACTIVITY_USE records; instead both sections emit
exactly one record per space row in the same (input) order, each
carrying the room's stripped name (description respectively key), so
the i-th record of one section and the i-th record of the other
describe the same room and the implicit 1-based emission indices of
both sections coincide and range over 1..N. -/
theorem c1_sections_aligned_by_order (i : BuildInput) :
    (interiorSpaceElems i).map (fun x => childText x "listPosition") =
      i.spaces.map (fun _ => none) ∧
    (activityUseElems i).map (fun x => childText x "listPosition") =
      i.spaces.map (fun _ => none) ∧
    (interiorSpaceElems i).map (fun x => childText x "description") =
      i.spaces.map (fun sp => some (pyStrip sp.description)) ∧
    (activityUseElems i).map (fun x => childText x "key") =
      i.spaces.map (fun sp => some (pyStrip sp.description)) := by
  refine ⟨?_, ?_, ?_, ?_⟩ <;>
    simp [interiorSpaceElems, activityUseElems, List.map_map, Function.comp_def,
      childText_spaceElem_listPosition, childText_activityElem_listPosition,
      childText_spaceElem_description, childText_activityElem_key]

/-- C2 counterexample: for the two fixture rows (RoomA, TypeX, qty 2)
and (RoomA, TypeX, qty 3) the built output holds two fixture records
with quantities "2" and "3"; no record shows the cumulative quantity 5. -/
theorem c2_quantities_not_merged :
    (fixtureChildren (spaceElem (fixturesBySpace [fxRowA1, fxRowA2]) spRoomA)).map
        (fun x => childText x "quantity") = [some "2", some "3"] ∧
    some "5" ∉ (fixtureChildren (spaceElem (fixturesBySpace [fxRowA1, fxRowA2]) spRoomA)).map
        (fun x => childText x "quantity") := by
  exact ⟨rfl, by decide⟩

/-- C2 amended: repeated fixture rows for the same (room, fixture type)
pair are not merged: each input row yields its own FIXTURE record, in
input order, carrying that row's own quantity, so rows with quantities
2 and 3 produce two records showing 2 and 3 rather than one showing 5. -/
theorem c2_each_row_own_record :
    (∀ (rows : List FixtureRow) (sp : SpaceRow),
      fixtureChildren (spaceElem (fixturesBySpace rows) sp) =
        (rows.filter (fun r => pyStrip r.spaceDescription == pyStrip sp.description)).map
          fixtureElem) ∧
    (∀ r : FixtureRow, childText (fixtureElem r) "quantity" = some (pyStrip (qtyText r.quantity))) := by
  constructor
  · intro rows sp
    rw [fixtureChildren_spaceElem, lookupFx_fixturesBySpace]
  · intro r
    rfl

/-- C5 counterexample: with the space table listing room "B" before room
"A", the records are emitted in that input order — the first emitted
record is room "B" although "A" precedes it lexicographically, so rank
in the output is not lexicographic rank. -/
theorem c5_not_lexicographic :
    (interiorSpaceElems inputBA).map (fun x => childText x "description") =
      [some "B", some "A"] ∧
    ("A" : String) < "B" := by
  refine ⟨rfl, ?_⟩
  rw [String.lt_iff_toList_lt]
  decide

/-- C5 amended: the record builder processes rooms in the space table's
input row order, with no sorting: the record at list index k (1-based
rank k+1) of the emitted interior-space sequence is the record of input
row k, whatever the lexicographic order of the names. -/
theorem c5_input_order_rank (i : BuildInput) :
    (interiorSpaceElems i).length = i.spaces.length ∧
    ∀ k : Nat,
      ((interiorSpaceElems i)[k]?).map (fun x => childText x "description") =
        (i.spaces[k]?).map (fun sp => some (pyStrip sp.description)) := by
  constructor
  · simp [interiorSpaceElems]
  · intro k
    rw [interiorSpaceElems, List.getElem?_map]
    cases i.spaces[k]? with
    | none => rfl
    | some sp => simp [childText_spaceElem_description]

/-- C6: building from identical inputs yields byte-identical output —
the builder and serializer are a single deterministic function of the
project settings, space table and fixture table, with no hash- or
time-dependent state (dict iteration is modelled by insertion-ordered
association lists exactly as Python guarantees). -/
theorem c6_build_deterministic (i j : BuildInput) (h : i = j) :
    cxlBytes i = cxlBytes j := by
  rw [h]

/-- Witness for C6 at a concrete input. -/
theorem c6_build_deterministic_witness :
    cxlBytes inputOneRoom = cxlBytes inputOneRoom :=
  c6_build_deterministic inputOneRoom inputOneRoom rfl

/-- C7: an empty space table yields the non-empty validation error list
["Spaces CSV appears empty."] and the generate gating disables the
build, so no output blob is produced. -/
theorem c7_empty_spaces_halts (i : BuildInput) (h : i.spaces = []) :
    validate_spaces_df i.spaces = ["Spaces CSV appears empty."] ∧
    generateOutput i = none := by
  constructor
  · rw [h]
    rfl
  · simp [generateOutput, generate_disabled, h]

/-- Witness for C7 at the concrete empty-table input. -/
theorem c7_empty_spaces_halts_witness :
    validate_spaces_df inputEmptySpaces.spaces = ["Spaces CSV appears empty."] ∧
    generateOutput inputEmptySpaces = none :=
  c7_empty_spaces_halts inputEmptySpaces rfl

/-- C8 counterexample: the code label "NOT A CODE" is outside the
`CODE_TO_CONTROL` table's domain, yet the build does not fail — both
the control and requirements sections silently carry the default entry
"CEZ_IECC2018". -/
theorem c8_unknown_code_defaults :
    CODE_TO_CONTROL.find? (fun p => p.1 == "NOT A CODE") = none ∧
    childText (controlElem inputUnknownCode) "code" = some "CEZ_IECC2018" ∧
    childText (requirementsElem inputUnknownCode) "energyCode" = some "CEZ_IECC2018" := by
  exact ⟨rfl, rfl, rfl⟩

/-- C8 amended: a code label absent from `CODE_TO_CONTROL` is not a
fatal error — `dict.get` silently substitutes the default table entry
"CEZ_IECC2018" in both the control and the requirements section of the
output. -/
theorem c8_unknown_code_fallback (i : BuildInput)
    (h : CODE_TO_CONTROL.find? (fun p => p.1 == i.selectedCodeLabel) = none) :
    childText (controlElem i) "code" = some "CEZ_IECC2018" ∧
    childText (requirementsElem i) "energyCode" = some "CEZ_IECC2018" := by
  have h1 : dictGet CODE_TO_CONTROL i.selectedCodeLabel "CEZ_IECC2018" = "CEZ_IECC2018" := by
    simp [dictGet, h]
  have e1 : childText (controlElem i) "code" =
      some (dictGet CODE_TO_CONTROL i.selectedCodeLabel "CEZ_IECC2018") := rfl
  have e2 : childText (requirementsElem i) "energyCode" =
      some (dictGet CODE_TO_CONTROL i.selectedCodeLabel "CEZ_IECC2018") := rfl
  rw [e1, e2, h1]
  exact ⟨rfl, rfl⟩

/-- Witness for C8 at the concrete unknown-label input. -/
theorem c8_unknown_code_fallback_witness :
    childText (controlElem inputUnknownCode) "code" = some "CEZ_IECC2018" ∧
    childText (requirementsElem inputUnknownCode) "energyCode" = some "CEZ_IECC2018" :=
  c8_unknown_code_fallback inputUnknownCode rfl

/-- C9: fixtures attach to spaces purely by equality of the
whitespace-stripped room-name strings — the fixture records of the
built tree are exactly, per space row in order, the fixture rows whose
stripped spaceDescription equals that row's stripped description — so a
fixture row matching no space row appears in no record; and the
generate gating inspects only the space table, so such a row also
triggers no error or diagnostic. -/
theorem c9_fixtures_by_stripped_name :
    (∀ i : BuildInput,
      allFixtureElems i = i.spaces.flatMap (fun sp =>
        (i.fixtures.filter
          (fun r => pyStrip r.spaceDescription == pyStrip sp.description)).map fixtureElem)) ∧
    (∀ i j : BuildInput, i.spaces = j.spaces →
      (generateOutput i).isSome = (generateOutput j).isSome) := by
  constructor
  · have aux : ∀ (sps : List SpaceRow) (fxs : List FixtureRow),
        (sps.map (spaceElem (fixturesBySpace fxs))).flatMap fixtureChildren =
          sps.flatMap (fun sp =>
            (fxs.filter
              (fun r => pyStrip r.spaceDescription == pyStrip sp.description)).map fixtureElem) := by
      intro sps fxs
      induction sps with
      | nil => rfl
      | cons sp t ih =>
        simp only [List.map_cons, List.flatMap_cons, ih,
          fixtureChildren_spaceElem, lookupFx_fixturesBySpace]
    intro i
    exact aux i.spaces i.fixtures
  · intro i j h
    by_cases hd : generate_disabled j.spaces = true
    · simp [generateOutput, h, hd]
    · simp [generateOutput, h, hd]

/-- Witness for C9: two builds sharing the space table, one with an
unmatched fixture row, succeed or fail alike. -/
theorem c9_fixtures_by_stripped_name_witness :
    (generateOutput inputOneRoom).isSome = (generateOutput inputFxUnmatched).isSome :=
  c9_fixtures_by_stripped_name.2 inputOneRoom inputFxUnmatched rfl
